import Mathlib

/-!
Verification of the Wedding Vendor Contract Builder (Next.js + flat JSON
storage).  The definitions below are a shallow embedding of the repository's
TypeScript source:

* `src/lib/data-service.ts` (embedded verbatim in `SIGNATURE_FEATURES.md`):
  `DataService.getContract`, `getContractsByVendor`, `createContract`,
  `updateContract`, `saveSignature`, `deleteContract`, `authenticateUser`.
* `src/app/api/contracts/route.ts` (GET list, POST create),
  `src/app/api/contracts/[id]/route.ts` (GET, PUT, DELETE) and the sign
  route (POST `/api/contracts/[id]/sign`).
* `src/app/api/ai-assist/route.ts` (`generateWithOpenRouter`, POST handler)
  and `src/lib/ai-service.ts` (`validateAIRequest`, `generateFallbackContent`
  with the four template generators).
* `src/lib/validation.ts` (`validateRequired`, `validateEventDate`,
  `validateAmount`, `validateContractData`, `validateNewContract`).
* `src/lib/signature-utils.ts` (`validateSignature`).
* `src/app/api/auth/login/route.ts` (POST login) and
  `src/app/api/auth/me/route.ts` (GET me).

Modelling conventions: JavaScript strings are Lean `String`s; a JS `number`
that may be `NaN` is `Option Rat` (`none` = `NaN`); JSON fields that may be
`undefined` are `Option`s; `request.json()` failing is the `none` body case;
ambient facts the runtime supplies (current time, `Date` parsing,
`parseFloat`, locale formatting, the OpenRouter API key and network call)
are fields of an explicit environment record.  The session cookie is
modelled as the parsed `User` value it stores (it is written by the login
route as `JSON.stringify` of a `User` and read back with `JSON.parse`).
Each route handler is a pure function from (environment, parsed cookie,
contract store, request parts) to (HTTP response, new contract store).
-/

/-! ## JS string primitives -/

/-- The whitespace characters removed by JavaScript's `String.prototype.trim`
(restricted to the ASCII range used by this application's data). -/
def isJsSpace (c : Char) : Bool :=
  c = ' ' || c = '\t' || c = '\n' || c = '\r' || c = '\x0b' || c = '\x0c'

/-- JavaScript `s.trim()`: strips leading and trailing whitespace. -/
def jsTrim (s : String) : String :=
  String.mk (((s.data.dropWhile isJsSpace).reverse.dropWhile isJsSpace).reverse)

/-- JavaScript `s.startsWith(p)`. -/
def jsStartsWith (s p : String) : Bool :=
  p.data.isPrefixOf s.data

/-- JavaScript truthiness of an optional string: `undefined` and `""` are
falsy (`!x` in the source). -/
def isFalsy (o : Option String) : Bool :=
  match o with
  | none => true
  | some s => s == ""

/-! ## Data model (`src/types/index.ts`) -/

/-- `Contract.status`: `'draft' | 'signed' | 'deleted'`. -/
inductive Status where
  | draft
  | signed
  | deleted
deriving DecidableEq, Repr

/-- `SignatureData`: the `type` field is a string at runtime (the route
checks it against `'drawn'`/`'typed'` dynamically). -/
structure SignatureData where
  type : String
  data : String
  timestamp : String
deriving DecidableEq, Repr

/-- `Contract` record as stored in `contracts.json`.  `amount` is a JS
number (`none` = `NaN`). -/
structure Contract where
  id : String
  vendorId : String
  clientName : String
  eventDate : String
  eventVenue : String
  servicePackage : String
  amount : Option Rat
  content : String
  status : Status
  signature : Option SignatureData
  createdAt : String
  updatedAt : String
deriving DecidableEq, Repr

/-- The `User` interface (also the shape of the parsed session cookie):
`id`, `email`, `vendorType`, `name` — and nothing else. -/
structure SessionUser where
  id : String
  email : String
  vendorType : String
  name : String
deriving DecidableEq, Repr

/-- An entry of `users.json`: `User & { password: string }`. -/
structure StoredUser where
  id : String
  email : String
  vendorType : String
  name : String
  password : String
deriving DecidableEq, Repr

/-- A JS value that is either a string or a number, as accepted by
`validateAmount(amount: string | number)`. -/
inductive StrOrNum where
  | str (s : String)
  | num (q : Option Rat)
deriving DecidableEq, Repr

/-- Ambient runtime facts: `new Date().toISOString()` (`now`), `Date`
parsing (`parseDate s` = `new Date(s).getTime()`, `none` = `NaN`), the
start of the current day (`today.setHours(0,0,0,0)`), `parseFloat`
(`none` = `NaN`), and the locale formatting functions used by the
fallback-content templates. -/
structure JsEnv where
  now : String
  parseDate : String → Option Int
  todayStart : Int
  parseFloat : String → Option Rat
  todayLocaleDate : String
  formatLongDate : Option String → String
  formatCurrency : Option Rat → String

/-- JS `parseFloat` applied to a `string | number` value (a number is
returned unchanged). -/
def parseFloatSN (env : JsEnv) : StrOrNum → Option Rat
  | .str s => env.parseFloat s
  | .num q => q

/-! ## DataService (`src/lib/data-service.ts`) -/

/-- `DataService.getContract`: `contracts.find(c => c.id === contractId) || null`. -/
def getContract (contracts : List Contract) (contractId : String) : Option Contract :=
  contracts.find? (fun c => c.id == contractId)

/-- `DataService.getContractsByVendor`: contracts of the vendor whose status
is not `'deleted'`. -/
def getContractsByVendor (contracts : List Contract) (vendorId : String) : List Contract :=
  contracts.filter (fun c => c.vendorId == vendorId && c.status != Status.deleted)

/-- The `updates` argument of `DataService.updateContract`
(`Partial<Omit<Contract, 'id' | 'createdAt'>>`); a `none` field is an
absent key, left unchanged by the object spread. -/
structure ContractUpdates where
  vendorId : Option String
  clientName : Option String
  eventDate : Option String
  eventVenue : Option String
  servicePackage : Option String
  amount : Option (Option Rat)
  content : Option String
  status : Option Status
  signature : Option SignatureData
deriving Repr

/-- `{ ...contracts[contractIndex], ...updates, updatedAt: new Date().toISOString() }`. -/
def applyUpdates (c : Contract) (u : ContractUpdates) (now : String) : Contract :=
  { id := c.id
    vendorId := u.vendorId.getD c.vendorId
    clientName := u.clientName.getD c.clientName
    eventDate := u.eventDate.getD c.eventDate
    eventVenue := u.eventVenue.getD c.eventVenue
    servicePackage := u.servicePackage.getD c.servicePackage
    amount := u.amount.getD c.amount
    content := u.content.getD c.content
    status := u.status.getD c.status
    signature := match u.signature with
      | some sig => some sig
      | none => c.signature
    createdAt := c.createdAt
    updatedAt := now }

/-- `DataService.updateContract`: replaces the first contract whose `id`
matches (`findIndex`) by the merged record; `none` when no contract matches
(the function throws `'Contract not found'`). -/
def updateContract (contracts : List Contract) (contractId : String)
    (u : ContractUpdates) (now : String) : Option (List Contract) :=
  match contracts with
  | [] => none
  | c :: rest =>
    if c.id == contractId then
      some (applyUpdates c u now :: rest)
    else
      (updateContract rest contractId u now).map (c :: ·)

/-- The argument of `DataService.createContract`
(`Omit<Contract, 'id' | 'createdAt' | 'updatedAt'>`). -/
structure NewContractData where
  vendorId : String
  clientName : String
  eventDate : String
  eventVenue : String
  servicePackage : String
  amount : Option Rat
  content : String
  status : Status
deriving Repr

/-- `DataService.createContract`: pushes a new record with a generated id
and `createdAt = updatedAt = now`.  The generated id is passed in
explicitly (`generateId('contract')` draws on ambient randomness). -/
def createContract (contracts : List Contract) (d : NewContractData)
    (newId now : String) : List Contract :=
  contracts ++ [{ id := newId
                  vendorId := d.vendorId
                  clientName := d.clientName
                  eventDate := d.eventDate
                  eventVenue := d.eventVenue
                  servicePackage := d.servicePackage
                  amount := d.amount
                  content := d.content
                  status := d.status
                  signature := none
                  createdAt := now
                  updatedAt := now }]

/-- An update record with every key absent. -/
def emptyUpdates : ContractUpdates :=
  { vendorId := none, clientName := none, eventDate := none,
    eventVenue := none, servicePackage := none, amount := none,
    content := none, status := none, signature := none }

/-- `DataService.saveSignature`: `updateContract(contractId, { signature, status: 'signed' })`. -/
def saveSignature (contracts : List Contract) (contractId : String)
    (sig : SignatureData) (now : String) : Option (List Contract) :=
  updateContract contracts contractId
    { emptyUpdates with signature := some sig, status := some Status.signed } now

/-- `DataService.deleteContract`: `updateContract(contractId, { status: 'deleted' })`. -/
def deleteContract (contracts : List Contract) (contractId : String)
    (now : String) : Option (List Contract) :=
  updateContract contracts contractId
    { emptyUpdates with status := some Status.deleted } now

/-- Drops the `password` key: `const { password: _, ...userWithoutPassword } = user`. -/
def stripPassword (u : StoredUser) : SessionUser :=
  { id := u.id, email := u.email, vendorType := u.vendorType, name := u.name }

/-- `DataService.authenticateUser`: finds the user by email and password and
returns it without the password field. -/
def authenticateUser (users : List StoredUser) (email password : String) :
    Option SessionUser :=
  (users.find? (fun u => u.email == email && u.password == password)).map stripPassword

/-! ## Validation (`src/lib/validation.ts`, constants from `src/lib/constants.ts`) -/

/-- `ValidationResult`. -/
structure ValidationResult where
  isValid : Bool
  error : Option String
deriving DecidableEq, Repr

/-- `VALIDATION_MESSAGES.REQUIRED_FIELD`. -/
def REQUIRED_FIELD : String := "This field is required"

/-- `VALIDATION_MESSAGES.INVALID_DATE`. -/
def INVALID_DATE : String := "Please enter a valid date"

/-- `VALIDATION_MESSAGES.INVALID_AMOUNT`. -/
def INVALID_AMOUNT : String := "Please enter a valid amount"

/-- `validateRequired(value, fieldName)`. -/
def validateRequired (value : String) (fieldName : Option String) : ValidationResult :=
  if jsTrim value == "" then
    { isValid := false
      error := some (match fieldName with
        | some n => n ++ " is required"
        | none => REQUIRED_FIELD) }
  else
    { isValid := true, error := none }

/-- `validateEventDate(dateString)`: required, parseable, not before the
start of the current day. -/
def validateEventDate (env : JsEnv) (dateString : String) : ValidationResult :=
  if jsTrim dateString == "" then
    { isValid := false, error := some REQUIRED_FIELD }
  else
    match env.parseDate dateString with
    | none => { isValid := false, error := some INVALID_DATE }
    | some t =>
      if t < env.todayStart then
        { isValid := false, error := some "Event date cannot be in the past" }
      else
        { isValid := true, error := none }

/-- `validateAmount(amount: string | number)`: a string is `parseFloat`ed
first; `NaN` and negative amounts are invalid, zero is rejected separately. -/
def validateAmount (env : JsEnv) (amount : StrOrNum) : ValidationResult :=
  match parseFloatSN env amount with
  | none => { isValid := false, error := some INVALID_AMOUNT }
  | some q =>
    if q < 0 then { isValid := false, error := some INVALID_AMOUNT }
    else if q = 0 then
      { isValid := false, error := some "Amount must be greater than 0" }
    else { isValid := true, error := none }

/-- The argument of `validateContractData`
(`Partial<Pick<Contract, 'clientName' | 'eventDate' | 'eventVenue' | 'servicePackage' | 'amount' | 'content'>>`). -/
structure ContractUpdateInput where
  clientName : Option String
  eventDate : Option String
  eventVenue : Option String
  servicePackage : Option String
  amount : Option StrOrNum
  content : Option String
deriving Repr

/-- The `errors` object of `ContractValidationResult`; `none` = key absent. -/
structure ContractErrors where
  clientName : Option String
  eventDate : Option String
  eventVenue : Option String
  servicePackage : Option String
  amount : Option String
  content : Option String
deriving DecidableEq, Repr

/-- The empty `errors` object. -/
def noContractErrors : ContractErrors :=
  { clientName := none, eventDate := none, eventVenue := none,
    servicePackage := none, amount := none, content := none }

/-- `ContractValidationResult`. -/
structure ContractValidationResult where
  isValid : Bool
  errors : ContractErrors
deriving DecidableEq, Repr

/-- Error of a field check, when the field is provided and invalid. -/
def fieldError (r : ValidationResult) : Option String :=
  if r.isValid then none else r.error

/-- `validateContractData`: validates only the provided fields;
`isValid` iff the errors object has no keys. -/
def validateContractData (env : JsEnv) (d : ContractUpdateInput) : ContractValidationResult :=
  let errors : ContractErrors :=
    { clientName := d.clientName.bind
        (fun v => fieldError (validateRequired v (some "Client name")))
      eventDate := d.eventDate.bind
        (fun v => fieldError (validateEventDate env v))
      eventVenue := d.eventVenue.bind
        (fun v => fieldError (validateRequired v (some "Event venue")))
      servicePackage := d.servicePackage.bind
        (fun v => fieldError (validateRequired v (some "Service package")))
      amount := d.amount.bind
        (fun v => fieldError (validateAmount env v))
      content := d.content.bind
        (fun v => fieldError (validateRequired v (some "Contract content"))) }
  { isValid := errors == noContractErrors, errors := errors }

/-- `validateNewContract`: same checks, with every field provided
(`Pick<Contract, ...>` is total). -/
def validateNewContract (env : JsEnv) (clientName eventDate eventVenue servicePackage : String)
    (amount : StrOrNum) (content : String) : ContractValidationResult :=
  validateContractData env
    { clientName := some clientName, eventDate := some eventDate,
      eventVenue := some eventVenue, servicePackage := some servicePackage,
      amount := some amount, content := some content }

/-! ## Signature utilities (`src/lib/signature-utils.ts`) -/

/-- `validateSignature(signature)`: requires truthy `type`, `data` and
`timestamp`, `type` in `['drawn','typed']`; a drawn signature's data must
start with `'data:image/'`, a typed one must have non-whitespace content. -/
def validateSignature (s : SignatureData) : Bool :=
  if s.type == "" || s.data == "" || s.timestamp == "" then
    false
  else if !(s.type == "drawn" || s.type == "typed") then
    false
  else if s.type == "drawn" then
    jsStartsWith s.data "data:image/"
  else
    (jsTrim s.data).length > 0

/-! ## API response shape -/

/-- The JSON body and HTTP status of a `NextResponse.json` reply:
`{ success, error?, data? }`. -/
structure ApiOut (α : Type) where
  status : Nat
  success : Bool
  error : Option String
  data : Option α
deriving Repr

/-- `401 { success: false, error: 'Not authenticated' }`. -/
def notAuthResp {α : Type} : ApiOut α :=
  { status := 401, success := false, error := some "Not authenticated", data := none }

/-- `404 { success: false, error: 'Contract not found' }`. -/
def notFoundResp {α : Type} : ApiOut α :=
  { status := 404, success := false, error := some "Contract not found", data := none }

/-- `403 { success: false, error: 'Access denied' }`. -/
def accessDeniedResp {α : Type} : ApiOut α :=
  { status := 403, success := false, error := some "Access denied", data := none }

/-- `200 { success: true }`. -/
def okResp {α : Type} : ApiOut α :=
  { status := 200, success := true, error := none, data := none }

/-- `400 { success: false, error: 'Cannot edit signed contracts' }`. -/
def cannotEditResp {α : Type} : ApiOut α :=
  { status := 400, success := false, error := some "Cannot edit signed contracts", data := none }

/-- `400 { success: false, error: 'Contract is already signed' }`. -/
def alreadySignedResp {α : Type} : ApiOut α :=
  { status := 400, success := false, error := some "Contract is already signed", data := none }

/-- `500 { success: false, error: msg }`. -/
def serverErrorResp {α : Type} (msg : String) : ApiOut α :=
  { status := 500, success := false, error := some msg, data := none }

/-! ## Contract API routes

`src/app/api/contracts/route.ts` and `src/app/api/contracts/[id]/route.ts`.
Every handler first reads the `session` cookie (parsed `SessionUser`,
`none` when the cookie is absent) and returns the response together with
the contract store after the operation. -/

/-- Parsed JSON body of `PUT /api/contracts/[id]`: each field may be absent
(the route only copies fields that are `!== undefined`). -/
structure PutBody where
  clientName : Option String
  eventDate : Option String
  eventVenue : Option String
  servicePackage : Option String
  amount : Option StrOrNum
  content : Option String
deriving Repr

/-- Parsed JSON body of `POST /api/contracts` (`Pick<Contract, ...>`; a
JSON number or numeric string for `amount`). -/
structure CreateBody where
  clientName : String
  eventDate : String
  eventVenue : String
  servicePackage : String
  amount : StrOrNum
  content : String
deriving Repr

/-- Parsed JSON body of `POST /api/contracts/[id]/sign`: `{ type, data }`,
either possibly absent. -/
structure SignBody where
  type : Option String
  data : Option String
deriving Repr

/-- The `updateData` object assembled by the PUT route: provided fields are
copied, `amount` is passed through `parseFloat`. -/
def putUpdateInput (env : JsEnv) (b : PutBody) : ContractUpdateInput :=
  { clientName := b.clientName
    eventDate := b.eventDate
    eventVenue := b.eventVenue
    servicePackage := b.servicePackage
    amount := b.amount.map (fun a => StrOrNum.num (parseFloatSN env a))
    content := b.content }

/-- The `ContractUpdates` record handed to `DataService.updateContract` by
the PUT route (no `status`, no `signature`, no `vendorId`). -/
def putUpdates (env : JsEnv) (b : PutBody) : ContractUpdates :=
  { vendorId := none
    clientName := b.clientName
    eventDate := b.eventDate
    eventVenue := b.eventVenue
    servicePackage := b.servicePackage
    amount := b.amount.map (fun a => parseFloatSN env a)
    content := b.content
    status := none
    signature := none }

/-- `GET /api/contracts`: all non-deleted contracts of the session vendor. -/
def contractsGET (cookie : Option SessionUser) (contracts : List Contract) :
    ApiOut (List Contract) × List Contract :=
  match cookie with
  | none => (notAuthResp, contracts)
  | some session =>
    ({ status := 200, success := true, error := none,
       data := some (getContractsByVendor contracts session.id) }, contracts)

/-- `POST /api/contracts`: validates the body and creates a `'draft'`
contract owned by the session vendor.  On success the response carries the
new id (`.inl`); a validation failure carries the errors object (`.inr`). -/
def contractsPOST (env : JsEnv) (cookie : Option SessionUser)
    (contracts : List Contract) (body : Option CreateBody) (newId : String) :
    ApiOut (Sum String ContractErrors) × List Contract :=
  match cookie with
  | none => (notAuthResp, contracts)
  | some session =>
    match body with
    | none => (serverErrorResp "Failed to create contract", contracts)
    | some b =>
      let validation := validateNewContract env b.clientName b.eventDate
        b.eventVenue b.servicePackage b.amount b.content
      if validation.isValid then
        ({ status := 201, success := true, error := none, data := some (Sum.inl newId) },
         createContract contracts
           { vendorId := session.id
             clientName := b.clientName
             eventDate := b.eventDate
             eventVenue := b.eventVenue
             servicePackage := b.servicePackage
             amount := parseFloatSN env b.amount
             content := b.content
             status := Status.draft } newId env.now)
      else
        ({ status := 400, success := false, error := some "Validation failed",
           data := some (Sum.inr validation.errors) }, contracts)

/-- `GET /api/contracts/[id]`: fetches a contract by id (any status) after
the ownership check. -/
def contractByIdGET (cookie : Option SessionUser) (contracts : List Contract)
    (contractId : String) : ApiOut Contract × List Contract :=
  match cookie with
  | none => (notAuthResp, contracts)
  | some session =>
    match getContract contracts contractId with
    | none => (notFoundResp, contracts)
    | some contract =>
      if contract.vendorId ≠ session.id then
        (accessDeniedResp, contracts)
      else
        ({ status := 200, success := true, error := none, data := some contract },
         contracts)

/-- `PUT /api/contracts/[id]`: ownership check, then the signed-contract
guard, then body validation, then `DataService.updateContract`. -/
def contractByIdPUT (env : JsEnv) (cookie : Option SessionUser)
    (contracts : List Contract) (contractId : String) (body : Option PutBody) :
    ApiOut ContractErrors × List Contract :=
  match cookie with
  | none => (notAuthResp, contracts)
  | some session =>
    match getContract contracts contractId with
    | none => (notFoundResp, contracts)
    | some existingContract =>
      if existingContract.vendorId ≠ session.id then
        (accessDeniedResp, contracts)
      else if existingContract.status = Status.signed then
        (cannotEditResp, contracts)
      else
        match body with
        | none => (serverErrorResp "Failed to update contract", contracts)
        | some b =>
          let validation := validateContractData env (putUpdateInput env b)
          if !validation.isValid then
            ({ status := 400, success := false, error := some "Validation failed",
               data := some validation.errors }, contracts)
          else
            match updateContract contracts contractId (putUpdates env b) env.now with
            | some newContracts => (okResp, newContracts)
            | none => (serverErrorResp "Failed to update contract", contracts)

/-- `DELETE /api/contracts/[id]`: ownership check, then
`DataService.deleteContract` (soft delete). -/
def contractByIdDELETE (env : JsEnv) (cookie : Option SessionUser)
    (contracts : List Contract) (contractId : String) :
    ApiOut ContractErrors × List Contract :=
  match cookie with
  | none => (notAuthResp, contracts)
  | some session =>
    match getContract contracts contractId with
    | none => (notFoundResp, contracts)
    | some existingContract =>
      if existingContract.vendorId ≠ session.id then
        (accessDeniedResp, contracts)
      else
        match deleteContract contracts contractId env.now with
        | some newContracts => (okResp, newContracts)
        | none => (serverErrorResp "Failed to delete contract", contracts)

/-- `POST /api/contracts/[id]/sign`: ownership check, already-signed guard,
signature body validation, then `DataService.saveSignature`. -/
def contractSignPOST (env : JsEnv) (cookie : Option SessionUser)
    (contracts : List Contract) (contractId : String) (body : Option SignBody) :
    ApiOut ContractErrors × List Contract :=
  match cookie with
  | none => (notAuthResp, contracts)
  | some session =>
    match getContract contracts contractId with
    | none => (notFoundResp, contracts)
    | some existingContract =>
      if existingContract.vendorId ≠ session.id then
        (accessDeniedResp, contracts)
      else if existingContract.status = Status.signed then
        (alreadySignedResp, contracts)
      else
        match body with
        | none => (serverErrorResp "Failed to sign contract", contracts)
        | some b =>
          if isFalsy b.type || isFalsy b.data then
            ({ status := 400, success := false,
               error := some "Invalid signature data", data := none }, contracts)
          else
            let type := b.type.getD ""
            let data := b.data.getD ""
            if !(type == "drawn" || type == "typed") then
              ({ status := 400, success := false,
                 error := some "Invalid signature type", data := none }, contracts)
            else
              match saveSignature contracts contractId
                  { type := type, data := data, timestamp := env.now } env.now with
              | some newContracts => (okResp, newContracts)
              | none => (serverErrorResp "Failed to sign contract", contracts)

/-! ## Auth routes (`src/app/api/auth/login`, `src/app/api/auth/me`) -/

/-- Result of `POST /api/auth/login`: the JSON reply plus the `session`
cookie that is set on success (the cookie stores `JSON.stringify` of the
`SessionUser`, modelled as the value itself). -/
structure LoginResult where
  status : Nat
  success : Bool
  error : Option String
  data : Option SessionUser
  setCookie : Option SessionUser
deriving DecidableEq, Repr

/-- `POST /api/auth/login`: requires truthy email and password, finds the
matching stored user, and builds the session object from its `id`, `email`,
`vendorType` and `name` only. -/
def loginPOST (users : List StoredUser) (body : Option (String × String)) : LoginResult :=
  match body with
  | none =>
    { status := 500, success := false, error := some "Internal server error",
      data := none, setCookie := none }
  | some (email, password) =>
    if email == "" || password == "" then
      { status := 400, success := false,
        error := some "Email and password are required",
        data := none, setCookie := none }
    else
      match users.find? (fun u => u.email == email && u.password == password) with
      | none =>
        { status := 401, success := false,
          error := some "Invalid email or password",
          data := none, setCookie := none }
      | some user =>
        let sessionUser : SessionUser :=
          { id := user.id, email := user.email,
            vendorType := user.vendorType, name := user.name }
        { status := 200, success := true, error := none,
          data := some sessionUser, setCookie := some sessionUser }

/-- `GET /api/auth/me`: returns the parsed session cookie. -/
def meGET (cookie : Option SessionUser) : ApiOut SessionUser :=
  match cookie with
  | none => notAuthResp
  | some user =>
    { status := 200, success := true, error := none, data := some user }

/-! ## AI assist (`src/lib/ai-service.ts`, `src/app/api/ai-assist/route.ts`) -/

/-- `Partial<AIContentRequest>` as received by the ai-assist route; `amount`
is a JS number (`none` = missing or `NaN`). -/
structure AIReq where
  vendorType : Option String
  clientName : Option String
  eventDate : Option String
  eventVenue : Option String
  servicePackage : Option String
  amount : Option Rat
  vendorName : Option String
deriving Repr

/-- Result of `validateAIRequest`. -/
structure AIValidation where
  isValid : Bool
  errors : List String
deriving DecidableEq, Repr

/-- `validateAIRequest(request)`: accumulates the error messages in source
order; for `amount`, `!request.amount || request.amount <= 0` is missing,
`NaN`, zero or non-positive, i.e. `none` or `q ≤ 0`. -/
def validateAIRequest (r : AIReq) : AIValidation :=
  let errors : List String :=
    (if isFalsy r.vendorType then ["Vendor type is required"] else [])
    ++ (if isFalsy (r.clientName.map jsTrim) then ["Client name is required"] else [])
    ++ (if isFalsy r.eventDate then ["Event date is required"] else [])
    ++ (if isFalsy (r.eventVenue.map jsTrim) then ["Event venue is required"] else [])
    ++ (if isFalsy (r.servicePackage.map jsTrim) then ["Service package is required"] else [])
    ++ (if (match r.amount with
            | none => true
            | some q => decide (q ≤ 0)) then ["Valid amount is required"] else [])
    ++ (if isFalsy (r.vendorName.map jsTrim) then ["Vendor name is required"] else [])
  { isValid := errors.isEmpty, errors := errors }

/-- JS string interpolation of a possibly-`undefined` value. -/
def optStr : Option String → String
  | none => "undefined"
  | some s => s

/-- `generatePhotographyContract`. -/
def generatePhotographyContract (env : JsEnv) (r : AIReq)
    (eventDate amount depositAmount balanceAmount : String) : String :=
  "WEDDING PHOTOGRAPHY CONTRACT\n\nThis Wedding Photography Contract (\"Agreement\") is made and entered into on "
  ++ env.todayLocaleDate ++ " by and between " ++ optStr r.vendorName
  ++ " (\"Photographer\") and " ++ optStr r.clientName
  ++ " (\"Client\").\n\nPHOTOGRAPHY SERVICES\nPhotographer agrees to provide professional photography services for Client\x27s wedding event on "
  ++ eventDate ++ " at " ++ optStr r.eventVenue
  ++ " (\"Event\"). Photographer will capture a comprehensive set of digital images documenting the wedding ceremony, reception, and other key moments as mutually agreed upon.\n\nPACKAGE DETAILS\nThe photography package includes:\n"
  ++ optStr r.servicePackage
  ++ "\n\nPAYMENT TERMS\nThe total fee for the photography services is "
  ++ amount ++ ". A non-refundable retainer of 50% of the total (" ++ depositAmount
  ++ ") is due upon signing this Agreement. The remaining balance of " ++ balanceAmount
  ++ " is due 30 days prior to the Event date.\n\nCANCELLATION & RESCHEDULING\nIf Client needs to cancel or reschedule the Event, written notice must be provided to Photographer at least 90 days in advance. In the event of a cancellation, the retainer is non-refundable. Rescheduling is subject to Photographer\x27s availability, and any date changes within 90 days of the Event may incur additional fees.\n\nIMAGE DELIVERY\nPhotographer will deliver the final edited images to Client within 4-6 weeks following the Event. Images will be provided in high-resolution digital format via online gallery and USB drive.\n\nCOPYRIGHT & USAGE RIGHTS\nPhotographer retains the copyright to all images captured during the Event. Client is granted a non-exclusive license to use the delivered images for personal, non-commercial purposes, including printing, sharing on social media, and making digital copies. Any commercial use of the images requires written permission from Photographer.\n\nBACKUP & CONTINGENCY\nPhotographer will bring backup camera equipment to the Event and will have contingency plans in place to ensure continuous coverage in the event of equipment failure or other unforeseen circumstances.\n\nPROFESSIONAL CONDUCT\nPhotographer agrees to conduct themselves in a professional manner throughout the Event and to work collaboratively with Client and any other vendors or event staff. Client agrees to provide Photographer with reasonable access and cooperation to facilitate the photography services.\n\nThis Wedding Photography Contract constitutes the entire agreement between the parties and supersedes all prior negotiations, representations, or agreements relating to the subject matter herein."

/-- `generateCateringContract`. -/
def generateCateringContract (env : JsEnv) (r : AIReq)
    (eventDate amount depositAmount balanceAmount : String) : String :=
  "WEDDING CATERING CONTRACT\n\nThis Wedding Catering Contract (\"Agreement\") is made and entered into on "
  ++ env.todayLocaleDate ++ " by and between " ++ optStr r.vendorName
  ++ " (\"Caterer\") and " ++ optStr r.clientName
  ++ " (\"Client\").\n\nCATERING SERVICES\nCaterer agrees to provide professional catering services for Client\x27s wedding event on "
  ++ eventDate ++ " at " ++ optStr r.eventVenue
  ++ " (\"Event\"). Caterer will provide food preparation, service, and cleanup as specified in this agreement.\n\nPACKAGE DETAILS\nThe catering package includes:\n"
  ++ optStr r.servicePackage
  ++ "\n\nPAYMENT TERMS\nThe total fee for the catering services is "
  ++ amount ++ ". A non-refundable deposit of 50% of the total (" ++ depositAmount
  ++ ") is due upon signing this Agreement. The remaining balance of " ++ balanceAmount
  ++ " is due 14 days prior to the Event date.\n\nGUEST COUNT & FINAL DETAILS\nClient must provide final guest count and any dietary restrictions no later than 7 days prior to the Event. Any increase in guest count after this deadline may result in additional charges.\n\nCANCELLATION & RESCHEDULING\nIf Client needs to cancel or reschedule the Event, written notice must be provided to Caterer at least 30 days in advance. In the event of a cancellation, the deposit is non-refundable. Rescheduling is subject to Caterer\x27s availability.\n\nSERVICE & SETUP\nCaterer will arrive at the venue at the agreed-upon time for setup and food preparation. Service staff will be provided as part of the package. Cleanup of catering areas and removal of catering equipment is included in the service.\n\nVENUE REQUIREMENTS\nClient is responsible for ensuring the venue has adequate kitchen facilities, electrical power, and water access as required for the catering service. Any additional equipment rental costs will be discussed in advance.\n\nLIABILITY & INSURANCE\nCaterer maintains appropriate liability insurance and food service permits. Client agrees to hold Caterer harmless from any claims arising from the consumption of food and beverages served at the Event.\n\nThis Wedding Catering Contract constitutes the entire agreement between the parties and supersedes all prior negotiations, representations, or agreements relating to the subject matter herein."

/-- `generateFloralContract`. -/
def generateFloralContract (env : JsEnv) (r : AIReq)
    (eventDate amount depositAmount balanceAmount : String) : String :=
  "WEDDING FLORAL CONTRACT\n\nThis Wedding Floral Contract (\"Agreement\") is made and entered into on "
  ++ env.todayLocaleDate ++ " by and between " ++ optStr r.vendorName
  ++ " (\"Florist\") and " ++ optStr r.clientName
  ++ " (\"Client\").\n\nFLORAL SERVICES\nFlorist agrees to provide professional floral design and delivery services for Client\x27s wedding event on "
  ++ eventDate ++ " at " ++ optStr r.eventVenue
  ++ " (\"Event\"). Services include design, preparation, delivery, and setup of floral arrangements as specified.\n\nPACKAGE DETAILS\nThe floral package includes:\n"
  ++ optStr r.servicePackage
  ++ "\n\nPAYMENT TERMS\nThe total fee for the floral services is "
  ++ amount ++ ". A non-refundable deposit of 50% of the total (" ++ depositAmount
  ++ ") is due upon signing this Agreement. The remaining balance of " ++ balanceAmount
  ++ " is due 14 days prior to the Event date.\n\nDESIGN CONSULTATION\nFlorist will work with Client to finalize floral designs, color schemes, and specific flower selections. Any changes to the original design after final approval may result in additional charges.\n\nDELIVERY & SETUP\nFlorist will deliver and set up all floral arrangements at the venue on the day of the Event. Setup time will be coordinated with the venue and other vendors. Florist will also handle breakdown and removal of rental items if applicable.\n\nFLOWER AVAILABILITY\nFlorist will make every effort to provide the specific flowers requested. However, due to seasonal availability and market conditions, substitutions of similar flowers may be necessary. Client will be notified of any major substitutions in advance.\n\nCARE & LONGEVITY\nFresh flowers are perishable and their longevity depends on environmental conditions. Florist cannot guarantee the condition of flowers beyond the Event day, especially in extreme weather conditions.\n\nCANCELLATION & CHANGES\nIf Client needs to cancel or make significant changes to the floral order, written notice must be provided at least 14 days in advance. Cancellations within 14 days of the Event may result in partial or full forfeiture of the deposit.\n\nThis Wedding Floral Contract constitutes the entire agreement between the parties and supersedes all prior negotiations, representations, or agreements relating to the subject matter herein."

/-- `generateGenericContract`. -/
def generateGenericContract (env : JsEnv) (r : AIReq)
    (eventDate amount depositAmount balanceAmount : String) : String :=
  "WEDDING VENDOR SERVICE CONTRACT\n\nThis Service Contract (\"Agreement\") is made and entered into on "
  ++ env.todayLocaleDate ++ " by and between " ++ optStr r.vendorName
  ++ " (\"Vendor\") and " ++ optStr r.clientName
  ++ " (\"Client\").\n\nSERVICES PROVIDED\nVendor agrees to provide professional services for Client\x27s wedding event on "
  ++ eventDate ++ " at " ++ optStr r.eventVenue
  ++ " (\"Event\").\n\nPACKAGE DETAILS\nThe service package includes:\n"
  ++ optStr r.servicePackage
  ++ "\n\nPAYMENT TERMS\nThe total fee for the services is "
  ++ amount ++ ". A deposit of 50% of the total (" ++ depositAmount
  ++ ") is due upon signing this Agreement. The remaining balance of " ++ balanceAmount
  ++ " is due 30 days prior to the Event date.\n\nCANCELLATION POLICY\nIf Client needs to cancel the Event, written notice must be provided to Vendor at least 30 days in advance. Cancellation fees may apply based on the timing of the cancellation notice.\n\nPROFESSIONAL CONDUCT\nVendor agrees to provide services in a professional manner and to coordinate appropriately with other vendors and venue staff. Client agrees to provide reasonable access and cooperation to facilitate the services.\n\nFORCE MAJEURE\nNeither party shall be liable for any failure to perform due to circumstances beyond their reasonable control, including but not limited to acts of God, natural disasters, or government restrictions.\n\nThis Service Contract constitutes the entire agreement between the parties and supersedes all prior negotiations, representations, or agreements relating to the subject matter herein."

/-- `generateFallbackContent`: formats date and amounts, then dispatches on
`vendorType` (unknown types fall through to the generic template). -/
def generateFallbackContent (env : JsEnv) (r : AIReq) : String :=
  let eventDate := env.formatLongDate r.eventDate
  let amount := env.formatCurrency r.amount
  let depositAmount := env.formatCurrency (r.amount.map (fun q => q * (0.5 : Rat)))
  let balanceAmount := env.formatCurrency (r.amount.map (fun q => q * (0.5 : Rat)))
  match r.vendorType with
  | some "photographer" => generatePhotographyContract env r eventDate amount depositAmount balanceAmount
  | some "caterer" => generateCateringContract env r eventDate amount depositAmount balanceAmount
  | some "florist" => generateFloralContract env r eventDate amount depositAmount balanceAmount
  | _ => generateGenericContract env r eventDate amount depositAmount balanceAmount

/-- OpenRouter configuration and network: `OPENROUTER_API_KEY` from the
process environment, and the outcome of the `fetch` to the completions
endpoint (body parsing included: an HTTP error or a malformed response body
is an `Except.error`, a successful call yields the generated content). -/
structure AiEnv where
  apiKey : Option String
  fetchCompletion : AIReq → Except String String

/-- `generateWithOpenRouter`: throws when no API key is configured,
otherwise performs the network call. -/
def generateWithOpenRouter (aienv : AiEnv) (r : AIReq) : Except String String :=
  match aienv.apiKey with
  | none => Except.error "OpenRouter API key not configured"
  | some _ => aienv.fetchCompletion r

/-- The JSON reply of `POST /api/ai-assist`. -/
structure AIResp where
  status : Nat
  success : Bool
  content : Option String
  error : Option String
  isFallback : Option Bool
deriving Repr

/-- `POST /api/ai-assist`: validation, then the OpenRouter attempt with the
template fallback on any thrown error. -/
def aiAssistPOST (env : JsEnv) (aienv : AiEnv) (body : Option AIReq) : AIResp :=
  match body with
  | none =>
    { status := 500, success := false, content := none,
      error := some "Failed to generate contract content", isFallback := none }
  | some req =>
    let validation := validateAIRequest req
    if !validation.isValid then
      { status := 400, success := false, content := none,
        error := some ("Validation failed: " ++ String.intercalate ", " validation.errors),
        isFallback := none }
    else
      match generateWithOpenRouter aienv req with
      | Except.ok content =>
        { status := 200, success := true, content := some content,
          error := none, isFallback := some false }
      | Except.error _ =>
        { status := 200, success := true,
          content := some (generateFallbackContent env req),
          error := none, isFallback := some true }

/-! ## Authenticated contract operations as store transformers (for the
status state machine) -/

/-- One authenticated contract API operation: create, update, sign or
delete.  `create` carries the freshly generated contract id. -/
inductive ApiOp where
  | create (body : Option CreateBody) (newId : String)
  | update (contractId : String) (body : Option PutBody)
  | sign (contractId : String) (body : Option SignBody)
  | del (contractId : String)
deriving Repr

/-- The contract store after one authenticated operation (the second
component of the corresponding route handler). -/
def applyOp (env : JsEnv) (user : SessionUser) (contracts : List Contract) :
    ApiOp → List Contract
  | .create body newId => (contractsPOST env (some user) contracts body newId).snd
  | .update contractId body => (contractByIdPUT env (some user) contracts contractId body).snd
  | .sign contractId body => (contractSignPOST env (some user) contracts contractId body).snd
  | .del contractId => (contractByIdDELETE env (some user) contracts contractId).snd

/-- One step of a request trace: the ambient environment at that moment,
the authenticated session and the operation. -/
structure OpStep where
  env : JsEnv
  user : SessionUser
  op : ApiOp

/-- The contract store after a sequence of authenticated operations. -/
def applySeq (steps : List OpStep) (contracts : List Contract) : List Contract :=
  steps.foldl (fun cur st => applyOp st.env st.user cur st.op) contracts

/-- A fixed ambient environment used to evaluate the theorems on concrete
inputs. -/
def testEnv : JsEnv :=
  { now := "2025-06-01T12:00:00.000Z"
    parseDate := fun s => if s == "" then none else some 1000
    todayStart := 0
    parseFloat := fun s => if s == "500" then some 500 else none
    todayLocaleDate := "6/1/2025"
    formatLongDate := fun _ => "Sunday, June 1, 2025"
    formatCurrency := fun _ => "$500.00" }

/-- A concrete contract used to evaluate the theorems. -/
def testContract : Contract :=
  { id := "contract_1"
    vendorId := "vendor_1"
    clientName := "Alice"
    eventDate := "2025-07-01"
    eventVenue := "Garden"
    servicePackage := "Gold"
    amount := some 500
    content := "Terms"
    status := Status.draft
    signature := none
    createdAt := "2025-05-01T00:00:00.000Z"
    updatedAt := "2025-05-01T00:00:00.000Z" }

/-- The owning vendor's session for `testContract`. -/
def testUser : SessionUser :=
  { id := "vendor_1", email := "v1@example.com", vendorType := "photographer", name := "Vera" }

/-! ## Store lemmas -/

theorem applyUpdates_id (c : Contract) (u : ContractUpdates) (now : String) :
    (applyUpdates c u now).id = c.id := rfl

theorem applyUpdates_status (c : Contract) (u : ContractUpdates) (now : String) :
    (applyUpdates c u now).status = u.status.getD c.status := rfl

theorem updateContract_length {l l' : List Contract} {cid : String}
    {u : ContractUpdates} {now : String}
    (h : updateContract l cid u now = some l') : l'.length = l.length := by
  induction l generalizing l' with
  | nil => simp [updateContract] at h
  | cons a rest ih =>
    unfold updateContract at h
    cases ha : a.id == cid with
    | true =>
      rw [ha] at h
      simp only [if_true] at h
      cases h
      simp
    | false =>
      rw [ha] at h
      simp only [if_false, Bool.false_eq_true, Option.map_eq_some'] at h
      obtain ⟨m, hm, rfl⟩ := h
      simp [ih hm]

theorem updateContract_getElem {l l' : List Contract} {cid : String}
    {u : ContractUpdates} {now : String}
    (h : updateContract l cid u now = some l') :
    ∀ i (h1 : i < l.length) (h2 : i < l'.length),
      l'[i] = l[i] ∨ l'[i] = applyUpdates l[i] u now := by
  induction l generalizing l' with
  | nil => simp [updateContract] at h
  | cons a rest ih =>
    unfold updateContract at h
    cases ha : a.id == cid with
    | true =>
      rw [ha] at h
      simp only [if_true] at h
      cases h
      intro i h1 h2
      cases i with
      | zero => right; rfl
      | succ j => left; rfl
    | false =>
      rw [ha] at h
      simp only [if_false, Bool.false_eq_true, Option.map_eq_some'] at h
      obtain ⟨m, hm, rfl⟩ := h
      intro i h1 h2
      cases i with
      | zero => left; rfl
      | succ j =>
        simpa using ih hm j (by simpa using h1) (by simpa using h2)

theorem getContract_updateContract {l : List Contract} {cid : String} {c : Contract}
    (u : ContractUpdates) (now : String) (h : getContract l cid = some c) :
    ∃ l', updateContract l cid u now = some l' ∧
      getContract l' cid = some (applyUpdates c u now) := by
  induction l with
  | nil => simp [getContract] at h
  | cons a rest ih =>
    unfold getContract at h ih ⊢
    unfold updateContract
    rw [List.find?_cons] at h
    cases ha : a.id == cid with
    | true =>
      rw [ha] at h
      simp only [cond_true] at h
      cases h
      refine ⟨applyUpdates c u now :: rest, by simp, ?_⟩
      rw [List.find?_cons]
      have hm : ((applyUpdates c u now).id == cid) = true := by
        rw [applyUpdates_id]; exact ha
      simp only [hm, cond_true]
    | false =>
      rw [ha] at h
      simp only [cond_false] at h
      obtain ⟨l', hl', hfind⟩ := ih h
      refine ⟨a :: l', by simp [hl'], ?_⟩
      rw [List.find?_cons, ha]
      simpa using hfind

theorem contractsPOST_store (env : JsEnv) (cookie : Option SessionUser)
    (s : List Contract) (body : Option CreateBody) (newId : String) :
    (contractsPOST env cookie s body newId).snd = s ∨
    ∃ c : Contract, c.status = Status.draft ∧
      (contractsPOST env cookie s body newId).snd = s ++ [c] := by
  unfold contractsPOST
  cases cookie with
  | none => left; rfl
  | some session =>
    cases body with
    | none => left; rfl
    | some b =>
      dsimp only
      split
      · right; exact ⟨_, rfl, rfl⟩
      · left; rfl

theorem contractByIdPUT_store (env : JsEnv) (cookie : Option SessionUser)
    (s : List Contract) (cid : String) (body : Option PutBody) :
    (contractByIdPUT env cookie s cid body).snd = s ∨
    ∃ b l', body = some b ∧
      updateContract s cid (putUpdates env b) env.now = some l' ∧
      (contractByIdPUT env cookie s cid body).snd = l' := by
  unfold contractByIdPUT
  cases cookie with
  | none => left; rfl
  | some session =>
    cases hg : getContract s cid with
    | none => left; rfl
    | some existing =>
      simp only [hg]
      split
      · left; rfl
      · split
        · left; rfl
        · cases body with
          | none => left; rfl
          | some b =>
            dsimp only
            split
            · left; rfl
            · cases hu : updateContract s cid (putUpdates env b) env.now with
              | none => simp [hu]
              | some l' => simp only [hu]; right; exact ⟨b, l', rfl, hu, rfl⟩

theorem contractSignPOST_store (env : JsEnv) (cookie : Option SessionUser)
    (s : List Contract) (cid : String) (body : Option SignBody) :
    (contractSignPOST env cookie s cid body).snd = s ∨
    ∃ sig l', saveSignature s cid sig env.now = some l' ∧
      (contractSignPOST env cookie s cid body).snd = l' := by
  unfold contractSignPOST
  cases cookie with
  | none => left; rfl
  | some session =>
    cases hg : getContract s cid with
    | none => left; rfl
    | some existing =>
      simp only [hg]
      split
      · left; rfl
      · split
        · left; rfl
        · cases body with
          | none => left; rfl
          | some b =>
            dsimp only
            split
            · left; rfl
            · split
              · left; rfl
              · cases hu : saveSignature s cid
                    { type := b.type.getD "", data := b.data.getD "",
                      timestamp := env.now } env.now with
                | none => simp [hu]
                | some l' => simp only [hu]; right; exact ⟨_, l', hu, rfl⟩

theorem contractByIdDELETE_store (env : JsEnv) (cookie : Option SessionUser)
    (s : List Contract) (cid : String) :
    (contractByIdDELETE env cookie s cid).snd = s ∨
    ∃ l', deleteContract s cid env.now = some l' ∧
      (contractByIdDELETE env cookie s cid).snd = l' := by
  unfold contractByIdDELETE
  cases cookie with
  | none => left; rfl
  | some session =>
    cases hg : getContract s cid with
    | none => left; rfl
    | some existing =>
      simp only [hg]
      split
      · left; rfl
      · cases hu : deleteContract s cid env.now with
        | none => simp [hu]
        | some l' => simp only [hu]; right; exact ⟨l', rfl, rfl⟩

theorem getElem_list_eq {α : Type} {t u : List α} (h : t = u) (i : Nat)
    (h2 : i < t.length) (h3 : i < u.length) : t[i] = u[i] := by
  subst h; rfl

theorem applyOp_length (env : JsEnv) (user : SessionUser) (s : List Contract)
    (op : ApiOp) : s.length ≤ (applyOp env user s op).length := by
  cases op with
  | create body newId =>
    simp only [applyOp]
    rcases contractsPOST_store env (some user) s body newId with h | ⟨c, _, h⟩ <;>
      simp [h]
  | update cid body =>
    simp only [applyOp]
    rcases contractByIdPUT_store env (some user) s cid body with h | ⟨b, l', _, hu, h⟩
    · simp [h]
    · rw [h, updateContract_length hu]
  | sign cid body =>
    simp only [applyOp]
    rcases contractSignPOST_store env (some user) s cid body with h | ⟨sig, l', hu, h⟩
    · simp [h]
    · have hu' : updateContract s cid
          { emptyUpdates with signature := some sig, status := some Status.signed }
          env.now = some l' := hu
      rw [h, updateContract_length hu']
  | del cid =>
    simp only [applyOp]
    rcases contractByIdDELETE_store env (some user) s cid with h | ⟨l', hu, h⟩
    · simp [h]
    · have hu' : updateContract s cid
          { emptyUpdates with status := some Status.deleted } env.now = some l' := hu
      rw [h, updateContract_length hu']

theorem applyOp_draft (env : JsEnv) (user : SessionUser) (s : List Contract)
    (op : ApiOp) :
    ∀ i (h1 : i < s.length) (h2 : i < (applyOp env user s op).length),
      ((applyOp env user s op).get ⟨i, h2⟩).status = Status.draft →
      (s.get ⟨i, h1⟩).status = Status.draft := by
  intro i h1 h2 hd
  rw [List.get_eq_getElem] at hd ⊢
  cases op with
  | create body newId =>
    rcases contractsPOST_store env (some user) s body newId with h | ⟨c, _, h⟩
    · have hh : applyOp env user s (ApiOp.create body newId) = s := h
      rw [getElem_list_eq hh i h2 h1] at hd
      exact hd
    · have hh : applyOp env user s (ApiOp.create body newId) = s ++ [c] := h
      have h3 : i < (s ++ [c]).length := hh ▸ h2
      rw [getElem_list_eq hh i h2 h3] at hd
      rwa [List.getElem_append_left h1] at hd
  | update cid body =>
    rcases contractByIdPUT_store env (some user) s cid body with h | ⟨b, l', _, hu, h⟩
    · have hh : applyOp env user s (ApiOp.update cid body) = s := h
      rw [getElem_list_eq hh i h2 h1] at hd
      exact hd
    · have hh : applyOp env user s (ApiOp.update cid body) = l' := h
      have h3 : i < l'.length := hh ▸ h2
      rw [getElem_list_eq hh i h2 h3] at hd
      rcases updateContract_getElem hu i h1 h3 with he | he
      · rw [he] at hd; exact hd
      · rw [he, applyUpdates_status,
          show (putUpdates env b).status = none from rfl] at hd
        simpa using hd
  | sign cid body =>
    rcases contractSignPOST_store env (some user) s cid body with h | ⟨sig, l', hu, h⟩
    · have hh : applyOp env user s (ApiOp.sign cid body) = s := h
      rw [getElem_list_eq hh i h2 h1] at hd
      exact hd
    · have hh : applyOp env user s (ApiOp.sign cid body) = l' := h
      have h3 : i < l'.length := hh ▸ h2
      rw [getElem_list_eq hh i h2 h3] at hd
      have hu' : updateContract s cid
          { emptyUpdates with signature := some sig, status := some Status.signed }
          env.now = some l' := hu
      rcases updateContract_getElem hu' i h1 h3 with he | he
      · rw [he] at hd; exact hd
      · rw [he, applyUpdates_status] at hd
        simp at hd
  | del cid =>
    rcases contractByIdDELETE_store env (some user) s cid with h | ⟨l', hu, h⟩
    · have hh : applyOp env user s (ApiOp.del cid) = s := h
      rw [getElem_list_eq hh i h2 h1] at hd
      exact hd
    · have hh : applyOp env user s (ApiOp.del cid) = l' := h
      have h3 : i < l'.length := hh ▸ h2
      rw [getElem_list_eq hh i h2 h3] at hd
      have hu' : updateContract s cid
          { emptyUpdates with status := some Status.deleted } env.now = some l' := hu
      rcases updateContract_getElem hu' i h1 h3 with he | he
      · rw [he] at hd; exact hd
      · rw [he, applyUpdates_status] at hd
        simp at hd

theorem applySeq_cons (st : OpStep) (steps : List OpStep) (s : List Contract) :
    applySeq (st :: steps) s = applySeq steps (applyOp st.env st.user s st.op) := rfl

theorem applySeq_length (steps : List OpStep) (s : List Contract) :
    s.length ≤ (applySeq steps s).length := by
  induction steps generalizing s with
  | nil => exact Nat.le_refl _
  | cons st steps ih =>
    rw [applySeq_cons]
    exact Nat.le_trans (applyOp_length st.env st.user s st.op)
      (ih (applyOp st.env st.user s st.op))

/-! ## Claim C1 -/

/-- A body that updates only the client name. -/
def putBodyClient : PutBody :=
  { clientName := some "Bob", eventDate := none, eventVenue := none,
    servicePackage := none, amount := none, content := none }

/-- A one-step trace: the owning vendor updates the test contract. -/
def steps0 : List OpStep :=
  [{ env := testEnv, user := testUser,
     op := ApiOp.update "contract_1" (some putBodyClient) }]

/-- `testContract` soft-deleted. -/
def deletedContract : Contract := { testContract with status := Status.deleted }

/-- A valid typed-signature request body. -/
def typedSignBody : SignBody := { type := some "typed", data := some "Vera" }

/-- C1 (amended): across every sequence of authenticated contract API
operations, a stored contract's status never returns to `'draft'`: if the
contract at position `i` ends with status `'draft'`, it already was
`'draft'` initially.  (The original claim is refuted by
`c1_deleted_contract_becomes_signed`: the sign route only rejects contracts
whose status is `'signed'`, so a `'deleted'` contract can move back to
`'signed'`.) -/
theorem c1_status_never_returns_to_draft (steps : List OpStep) (s : List Contract) :
    ∀ i (h1 : i < s.length) (h2 : i < (applySeq steps s).length),
      ((applySeq steps s).get ⟨i, h2⟩).status = Status.draft →
      (s.get ⟨i, h1⟩).status = Status.draft := by
  induction steps generalizing s with
  | nil => intro i h1 h2 hd; exact hd
  | cons st steps ih =>
    intro i h1 h2 hd
    have hmid : i < (applyOp st.env st.user s st.op).length :=
      Nat.lt_of_lt_of_le h1 (applyOp_length st.env st.user s st.op)
    exact applyOp_draft st.env st.user s st.op i h1 hmid
      (ih (applyOp st.env st.user s st.op) i hmid h2 hd)

/-- Witness for C1: a concrete one-step trace on a concrete store. -/
theorem c1_status_never_returns_to_draft_witness :
    ([testContract].get ⟨0, Nat.zero_lt_one⟩).status = Status.draft :=
  c1_status_never_returns_to_draft steps0 [testContract] 0 Nat.zero_lt_one
    (by decide) (by decide)

/-- Counterexample to C1 as stated: signing a contract whose status is
`'deleted'` succeeds and moves its status back to `'signed'`, so statuses do
not only move forward along draft → signed → deleted. -/
theorem c1_deleted_contract_becomes_signed :
    deletedContract.status = Status.deleted ∧
    (applyOp testEnv testUser [deletedContract]
        (ApiOp.sign "contract_1" (some typedSignBody))).map Contract.status
      = [Status.signed] ∧
    (contractSignPOST testEnv (some testUser) [deletedContract] "contract_1"
        (some typedSignBody)).fst.success = true := by
  refine ⟨rfl, rfl, rfl⟩

/-! ## Claim C5 -/

/-- C5: every contract API operation (GET/POST list, GET/PUT/DELETE by id,
POST sign) with no `session` cookie returns `401` with error
`'Not authenticated'` and leaves the stored contracts unchanged. -/
theorem c5_no_session_cookie_is_401 (env : JsEnv) (s : List Contract)
    (cid : String) (bodyC : Option CreateBody) (newId : String)
    (bodyP : Option PutBody) (bodyS : Option SignBody) :
    contractsGET none s = (notAuthResp, s) ∧
    contractsPOST env none s bodyC newId = (notAuthResp, s) ∧
    contractByIdGET none s cid = (notAuthResp, s) ∧
    contractByIdPUT env none s cid bodyP = (notAuthResp, s) ∧
    contractByIdDELETE env none s cid = (notAuthResp, s) ∧
    contractSignPOST env none s cid bodyS = (notAuthResp, s) :=
  ⟨rfl, rfl, rfl, rfl, rfl, rfl⟩

/-! ## Claim C6 -/

theorem trim_list_eq_nil_iff (p : Char → Bool) (l : List Char) :
    ((l.dropWhile p).reverse.dropWhile p).reverse = [] ↔ ∀ c ∈ l, p c = true := by
  rw [List.reverse_eq_nil_iff, List.dropWhile_eq_nil_iff]
  simp only [List.mem_reverse]
  constructor
  · intro h c hc
    by_cases hpc : p c = true
    · exact hpc
    · have hmem : c ∈ l.takeWhile p ++ l.dropWhile p := by
        rw [List.takeWhile_append_dropWhile]; exact hc
      rcases List.mem_append.mp hmem with h1 | h2
      · exact List.mem_takeWhile_imp h1
      · exact h c h2
  · intro h c hc
    exact h c ((List.dropWhile_sublist _).subset hc)

theorem jsTrim_length_pos_iff (s : String) :
    0 < (jsTrim s).length ↔ ∃ c ∈ s.data, isJsSpace c = false := by
  have h : (jsTrim s).length
      = (((s.data.dropWhile isJsSpace).reverse.dropWhile isJsSpace).reverse).length := rfl
  rw [h, List.length_pos, Ne, trim_list_eq_nil_iff]
  push_neg
  simp [Bool.not_eq_true]

/-- C6: `validateSignature(s)` returns true iff `type`, `data` and
`timestamp` are non-empty, `type` is `'drawn'` or `'typed'`, a drawn
signature's data starts with `'data:image/'`, and a typed signature's data
contains at least one non-whitespace character. -/
theorem c6_validateSignature_iff (s : SignatureData) :
    validateSignature s = true ↔
      (s.type ≠ "" ∧ s.data ≠ "" ∧ s.timestamp ≠ "" ∧
       (s.type = "drawn" ∨ s.type = "typed") ∧
       (s.type = "drawn" → jsStartsWith s.data "data:image/" = true) ∧
       (s.type = "typed" → ∃ c ∈ s.data.data, isJsSpace c = false)) := by
  unfold validateSignature
  by_cases h1 : (s.type == "" || s.data == "" || s.timestamp == "") = true
  · rw [if_pos h1]
    simp only [Bool.or_eq_true, beq_iff_eq] at h1
    constructor
    · intro hfalse; exact absurd hfalse (by simp)
    · rintro ⟨ht, hd, hts, -⟩
      rcases h1 with (h | h) | h
      · exact absurd h ht
      · exact absurd h hd
      · exact absurd h hts
  · rw [if_neg h1]
    simp only [Bool.or_eq_true, beq_iff_eq, not_or] at h1
    obtain ⟨⟨ht, hd⟩, hts⟩ := h1
    by_cases h2 : (s.type = "drawn" ∨ s.type = "typed")
    · have h2' : (!(s.type == "drawn" || s.type == "typed")) = true → False := by
        simp only [Bool.not_eq_true', Bool.or_eq_false_iff, beq_eq_false_iff_ne]
        rintro ⟨hn1, hn2⟩
        rcases h2 with h | h
        · exact hn1 h
        · exact hn2 h
      rw [if_neg h2']
      by_cases h3 : s.type = "drawn"
      · rw [if_pos (by simp [h3])]
        constructor
        · intro hstart
          refine ⟨ht, hd, hts, Or.inl h3, fun _ => hstart, fun htyp => ?_⟩
          rw [h3] at htyp; exact absurd htyp (by decide)
        · rintro ⟨-, -, -, -, hdrawn, -⟩
          exact hdrawn h3
      · have h4 : s.type = "typed" := by
          rcases h2 with h | h
          · exact absurd h h3
          · exact h
        rw [if_neg (by simp [h3])]
        rw [decide_eq_true_iff, gt_iff_lt, jsTrim_length_pos_iff]
        constructor
        · intro hws
          refine ⟨ht, hd, hts, Or.inr h4, fun hdr => absurd hdr h3, fun _ => hws⟩
        · rintro ⟨-, -, -, -, -, htyped⟩
          exact htyped h4
    · have h2' : (!(s.type == "drawn" || s.type == "typed")) = true := by
        simp only [Bool.not_eq_true', Bool.or_eq_false_iff, beq_eq_false_iff_ne]
        push_neg at h2
        exact h2
      rw [if_pos h2']
      constructor
      · intro hfalse; exact absurd hfalse (by simp)
      · rintro ⟨-, -, -, hor, -⟩
        exact absurd hor h2

/-! ## Claim C2 -/

/-- C2: for an owned contract and a valid update payload,
`PUT /api/contracts/[id]` answers `400 'Cannot edit signed contracts'` iff
the contract's status is `'signed'`; in that case the store is untouched,
and otherwise (`'draft'` or `'deleted'`) the update succeeds and the stored
contract is the merge of the old record with the provided fields. -/
theorem c2_put_rejects_signed_only (env : JsEnv) (u : SessionUser)
    (s : List Contract) (cid : String) (c : Contract) (b : PutBody)
    (hfound : getContract s cid = some c)
    (howner : c.vendorId = u.id)
    (hvalid : (validateContractData env (putUpdateInput env b)).isValid = true) :
    ((contractByIdPUT env (some u) s cid (some b)).fst = cannotEditResp
        ↔ c.status = Status.signed) ∧
    (c.status = Status.signed →
      (contractByIdPUT env (some u) s cid (some b)).snd = s) ∧
    (c.status ≠ Status.signed →
      (contractByIdPUT env (some u) s cid (some b)).fst = okResp ∧
      getContract (contractByIdPUT env (some u) s cid (some b)).snd cid
        = some (applyUpdates c (putUpdates env b) env.now)) := by
  have hnotv : ¬(c.vendorId ≠ u.id) := by simp [howner]
  unfold contractByIdPUT
  simp only [hfound]
  rw [if_neg hnotv]
  by_cases hs : c.status = Status.signed
  · rw [if_pos hs]
    exact ⟨⟨fun _ => hs, fun _ => rfl⟩, fun _ => rfl, fun hns => absurd hs hns⟩
  · rw [if_neg hs]
    rw [if_neg (by simp [hvalid])]
    obtain ⟨l', hupd, hfind⟩ :=
      getContract_updateContract (putUpdates env b) env.now hfound
    rw [hupd]
    refine ⟨⟨fun h => ?_, fun h => absurd h hs⟩, fun h => absurd h hs,
      fun _ => ⟨rfl, hfind⟩⟩
    exfalso
    simp only [okResp, cannotEditResp, ApiOut.mk.injEq] at h
    omega

/-- Witness for C2: updating the draft test contract succeeds. -/
theorem c2_put_rejects_signed_only_witness :
    (contractByIdPUT testEnv (some testUser) [testContract] "contract_1"
      (some putBodyClient)).fst = okResp :=
  ((c2_put_rejects_signed_only testEnv testUser [testContract] "contract_1"
      testContract putBodyClient rfl rfl (by decide)).2.2 (by decide)).1

/-! ## Claim C3 -/

/-- C3: for an owned contract, the sign route (a) on a non-signed contract
with present data and type `'drawn'` or `'typed'` succeeds, storing the
signature record `{ type, data, timestamp := now }` and setting the status
to `'signed'`; (b) on an already-signed contract answers
`400 'Contract is already signed'` without touching the store; (c) answers
`400 'Invalid signature data'` when type or data is missing (falsy) and
(d) `400 'Invalid signature type'` when the type is outside
`{'drawn','typed'}`, in both cases without touching the store. -/
theorem c3_sign_route_behaviour (env : JsEnv) (u : SessionUser)
    (s : List Contract) (cid : String) (c : Contract)
    (hfound : getContract s cid = some c)
    (howner : c.vendorId = u.id) :
    (c.status = Status.signed → ∀ body,
      contractSignPOST env (some u) s cid body = (alreadySignedResp, s)) ∧
    (c.status ≠ Status.signed → ∀ t d, t ≠ "" → d ≠ "" →
      (t = "drawn" ∨ t = "typed") →
      (contractSignPOST env (some u) s cid
          (some { type := some t, data := some d })).fst = okResp ∧
      getContract (contractSignPOST env (some u) s cid
          (some { type := some t, data := some d })).snd cid
        = some { c with
            signature := some { type := t, data := d, timestamp := env.now },
            status := Status.signed, updatedAt := env.now }) ∧
    (c.status ≠ Status.signed → ∀ b : SignBody,
      (isFalsy b.type || isFalsy b.data) = true →
      contractSignPOST env (some u) s cid (some b)
        = ({ status := 400, success := false,
             error := some "Invalid signature data", data := none }, s)) ∧
    (c.status ≠ Status.signed → ∀ t d, t ≠ "" → d ≠ "" →
      t ≠ "drawn" → t ≠ "typed" →
      contractSignPOST env (some u) s cid
          (some { type := some t, data := some d })
        = ({ status := 400, success := false,
             error := some "Invalid signature type", data := none }, s)) := by
  have hnotv : ¬(c.vendorId ≠ u.id) := by simp [howner]
  refine ⟨?_, ?_, ?_, ?_⟩
  · intro hs body
    unfold contractSignPOST
    simp only [hfound]
    rw [if_neg hnotv, if_pos hs]
  · intro hs t d ht hd htype
    unfold contractSignPOST
    simp only [hfound]
    rw [if_neg hnotv, if_neg hs]
    rw [if_neg (show ¬((isFalsy (some t) || isFalsy (some d)) = true) by
      simp [isFalsy, ht, hd])]
    rw [if_neg (show ¬((!((some t).getD "" == "drawn" || (some t).getD "" == "typed")) = true) by
      simp only [Option.getD_some, Bool.not_eq_true', Bool.or_eq_false_iff,
        beq_eq_false_iff_ne]
      rintro ⟨hn1, hn2⟩
      rcases htype with h | h
      · exact hn1 h
      · exact hn2 h)]
    obtain ⟨l', hupd, hfind⟩ := getContract_updateContract
      { emptyUpdates with
        signature := some { type := (some t).getD "", data := (some d).getD "",
                            timestamp := env.now },
        status := some Status.signed } env.now hfound
    have hupd' : saveSignature s cid
        { type := (some t).getD "", data := (some d).getD "",
          timestamp := env.now } env.now = some l' := hupd
    rw [hupd']
    exact ⟨rfl, hfind⟩
  · intro hs b hfalsy
    unfold contractSignPOST
    simp only [hfound]
    rw [if_neg hnotv, if_neg hs, if_pos hfalsy]
  · intro hs t d ht hd hn1 hn2
    unfold contractSignPOST
    simp only [hfound]
    rw [if_neg hnotv, if_neg hs]
    rw [if_neg (show ¬((isFalsy (some t) || isFalsy (some d)) = true) by
      simp [isFalsy, ht, hd])]
    rw [if_pos (show (!((some t).getD "" == "drawn" || (some t).getD "" == "typed")) = true by
      simp only [Option.getD_some, Bool.not_eq_true', Bool.or_eq_false_iff,
        beq_eq_false_iff_ne]
      exact ⟨hn1, hn2⟩)]

/-- Witness for C3: signing the draft test contract with a typed signature
succeeds and stores the signature with status `'signed'`. -/
theorem c3_sign_route_behaviour_witness :
    (contractSignPOST testEnv (some testUser) [testContract] "contract_1"
      (some { type := some "typed", data := some "Vera" })).fst = okResp :=
  ((c3_sign_route_behaviour testEnv testUser [testContract] "contract_1"
      testContract rfl rfl).2.1 (by decide) "typed" "Vera" (by decide) (by decide)
      (Or.inr rfl)).1

/-! ## Claim C4 -/

/-- C4: `DELETE /api/contracts/[id]` on an owned contract is a soft delete:
it succeeds, the record stays in the store with status `'deleted'` and
`updatedAt` refreshed while every other field (`id`, `vendorId`,
`clientName`, `eventDate`, `eventVenue`, `servicePackage`, `amount`,
`content`, `signature`, `createdAt`) is unchanged — captured by the record
update `{ c with status := deleted, updatedAt := now }` — and the contract
no longer appears in the list produced by `GET /api/contracts`. -/
theorem c4_delete_is_soft (env : JsEnv) (u : SessionUser) (s : List Contract)
    (cid : String) (c : Contract)
    (hfound : getContract s cid = some c)
    (howner : c.vendorId = u.id) :
    (contractByIdDELETE env (some u) s cid).fst = okResp ∧
    getContract (contractByIdDELETE env (some u) s cid).snd cid
      = some { c with status := Status.deleted, updatedAt := env.now } ∧
    ({ c with status := Status.deleted, updatedAt := env.now } : Contract)
      ∉ getContractsByVendor (contractByIdDELETE env (some u) s cid).snd u.id := by
  have hnotv : ¬(c.vendorId ≠ u.id) := by simp [howner]
  unfold contractByIdDELETE
  simp only [hfound]
  rw [if_neg hnotv]
  obtain ⟨l', hupd, hfind⟩ := getContract_updateContract
    { emptyUpdates with status := some Status.deleted } env.now hfound
  have hupd' : deleteContract s cid env.now = some l' := hupd
  rw [hupd']
  refine ⟨rfl, hfind, ?_⟩
  intro hmem
  simp [getContractsByVendor, List.mem_filter] at hmem

/-- Witness for C4: deleting the draft test contract. -/
theorem c4_delete_is_soft_witness :
    (contractByIdDELETE testEnv (some testUser) [testContract] "contract_1").fst
      = okResp :=
  (c4_delete_is_soft testEnv testUser [testContract] "contract_1" testContract
    rfl rfl).1

/-! ## Claim C8 -/

/-- A session for a different vendor than `testContract`'s owner. -/
def otherUser : SessionUser :=
  { id := "vendor_2", email := "v2@example.com", vendorType := "caterer", name := "Omar" }

/-- C8: contract data never crosses vendor boundaries: the list endpoint
only returns contracts whose `vendorId` is the session's id, and each by-id
endpoint (GET, PUT, DELETE, sign) answers `403 'Access denied'` and leaves
the store unchanged whenever the target contract belongs to another
vendor. -/
theorem c8_vendor_isolation (env : JsEnv) (u : SessionUser) (s : List Contract)
    (cid : String) (c : Contract) (bodyP : Option PutBody) (bodyS : Option SignBody) :
    (∀ l, (contractsGET (some u) s).fst.data = some l →
      ∀ x ∈ l, x.vendorId = u.id) ∧
    (getContract s cid = some c → c.vendorId ≠ u.id →
      contractByIdGET (some u) s cid = (accessDeniedResp, s) ∧
      contractByIdPUT env (some u) s cid bodyP = (accessDeniedResp, s) ∧
      contractByIdDELETE env (some u) s cid = (accessDeniedResp, s) ∧
      contractSignPOST env (some u) s cid bodyS = (accessDeniedResp, s)) := by
  constructor
  · intro l hl x hx
    have : l = getContractsByVendor s u.id := by
      simpa [contractsGET] using hl.symm
    subst this
    rw [getContractsByVendor, List.mem_filter] at hx
    have := hx.2
    simp only [Bool.and_eq_true, beq_iff_eq] at this
    exact this.1
  · intro hfound hne
    refine ⟨?_, ?_, ?_, ?_⟩
    · unfold contractByIdGET
      simp only [hfound]
      rw [if_pos hne]
    · unfold contractByIdPUT
      simp only [hfound]
      rw [if_pos hne]
    · unfold contractByIdDELETE
      simp only [hfound]
      rw [if_pos hne]
    · unfold contractSignPOST
      simp only [hfound]
      rw [if_pos hne]

/-- Witness for C8: a foreign vendor is denied access to the test
contract. -/
theorem c8_vendor_isolation_witness :
    contractByIdGET (some otherUser) [testContract] "contract_1"
      = (accessDeniedResp, [testContract]) :=
  ((c8_vendor_isolation testEnv otherUser [testContract] "contract_1"
      testContract none none).2 rfl (by decide)).1

/-! ## Claim C9 -/

/-- A stored user with a password, used to evaluate the login theorems. -/
def testStoredUser : StoredUser :=
  { id := "u1", email := "a@b.c", vendorType := "caterer", name := "Nia",
    password := "pw1234" }

/-- C9: a successful login builds the session object from exactly the
user's `id`, `email`, `vendorType` and `name` (that is `stripPassword`), so
the `session` cookie and the returned user never contain the password; the
`/api/auth/me` endpoint likewise only echoes that password-free session
object, and `DataService.authenticateUser` returns the stored user with the
password key removed. -/
theorem c9_login_excludes_password (users : List StoredUser)
    (email password : String) (u : StoredUser)
    (hne : email ≠ "") (hnp : password ≠ "")
    (hfind : users.find? (fun x => x.email == email && x.password == password)
      = some u) :
    loginPOST users (some (email, password))
      = { status := 200, success := true, error := none,
          data := some (stripPassword u), setCookie := some (stripPassword u) } ∧
    authenticateUser users email password = some (stripPassword u) ∧
    meGET (some (stripPassword u))
      = { status := 200, success := true, error := none,
          data := some (stripPassword u) } := by
  unfold loginPOST authenticateUser meGET
  dsimp only
  rw [if_neg (show ¬((email == "" || password == "") = true) by
    simp [hne, hnp])]
  rw [hfind]
  exact ⟨rfl, rfl, rfl⟩

/-- Witness for C9: logging in as the test user. -/
theorem c9_login_excludes_password_witness :
    loginPOST [testStoredUser] (some ("a@b.c", "pw1234"))
      = { status := 200, success := true, error := none,
          data := some (stripPassword testStoredUser),
          setCookie := some (stripPassword testStoredUser) } :=
  (c9_login_excludes_password [testStoredUser] "a@b.c" "pw1234" testStoredUser
    (by decide) (by decide) rfl).1

/-! ## Claim C10 -/

/-- C10: a `'deleted'` contract stays retrievable by its owner through
`GET /api/contracts/[id]`, which returns it unchanged (status `'deleted'`),
even though it never appears in the `GET /api/contracts` list: the by-id
lookup does not filter by status. -/
theorem c10_deleted_retrievable_by_id (u : SessionUser) (s : List Contract)
    (cid : String) (c : Contract)
    (hfound : getContract s cid = some c)
    (howner : c.vendorId = u.id)
    (hdel : c.status = Status.deleted) :
    contractByIdGET (some u) s cid
      = ({ status := 200, success := true, error := none, data := some c }, s) ∧
    c ∉ getContractsByVendor s u.id := by
  constructor
  · unfold contractByIdGET
    simp only [hfound]
    rw [if_neg (by simp [howner])]
  · intro hmem
    rw [getContractsByVendor, List.mem_filter] at hmem
    have := hmem.2
    simp [hdel] at this

/-- Witness for C10: the soft-deleted test contract is returned by the
by-id route but absent from the vendor list. -/
theorem c10_deleted_retrievable_by_id_witness :
    deletedContract ∉ getContractsByVendor [deletedContract] testUser.id :=
  (c10_deleted_retrievable_by_id testUser [deletedContract] "contract_1"
    deletedContract rfl rfl rfl).2

/-! ## Claim C7 -/

/-- An OpenRouter configuration with no API key and a failing network. -/
def aiEnvNoKey : AiEnv :=
  { apiKey := none, fetchCompletion := fun _ => Except.error "network down" }

/-- A valid AI content request used to evaluate the theorems. -/
def testAIReq : AIReq :=
  { vendorType := some "photographer", clientName := some "Alice",
    eventDate := some "2025-07-01", eventVenue := some "Garden",
    servicePackage := some "Gold", amount := some 500,
    vendorName := some "Vera" }

/-- C7: a request that passes `validateAIRequest` always gets
`success: true`: the OpenRouter content with `isFallback: false` when the
call succeeds, and the locally generated fallback content with
`isFallback: true` when it throws — which it always does when no API key is
configured; a request that fails validation gets a `400` reply with
`success: false`. -/
theorem c7_ai_assist_fallback (env : JsEnv) (aienv : AiEnv) (req : AIReq) :
    ((validateAIRequest req).isValid = true →
      (aiAssistPOST env aienv (some req)).success = true ∧
      (∀ content, generateWithOpenRouter aienv req = Except.ok content →
        aiAssistPOST env aienv (some req)
          = { status := 200, success := true, content := some content,
              error := none, isFallback := some false }) ∧
      (∀ e, generateWithOpenRouter aienv req = Except.error e →
        aiAssistPOST env aienv (some req)
          = { status := 200, success := true,
              content := some (generateFallbackContent env req),
              error := none, isFallback := some true })) ∧
    (aienv.apiKey = none →
      generateWithOpenRouter aienv req
        = Except.error "OpenRouter API key not configured") ∧
    ((validateAIRequest req).isValid = false →
      aiAssistPOST env aienv (some req)
        = { status := 400, success := false, content := none,
            error := some ("Validation failed: "
              ++ String.intercalate ", " (validateAIRequest req).errors),
            isFallback := none }) := by
  refine ⟨?_, ?_, ?_⟩
  · intro hvalid
    have hni : ¬((!(validateAIRequest req).isValid) = true) := by simp [hvalid]
    refine ⟨?_, ?_, ?_⟩
    · unfold aiAssistPOST
      dsimp only
      rw [if_neg hni]
      cases hgen : generateWithOpenRouter aienv req <;> rfl
    · intro content hgen
      unfold aiAssistPOST
      dsimp only
      rw [if_neg hni, hgen]
    · intro e hgen
      unfold aiAssistPOST
      dsimp only
      rw [if_neg hni, hgen]
  · intro hkey
    unfold generateWithOpenRouter
    rw [hkey]
  · intro hinvalid
    unfold aiAssistPOST
    dsimp only
    rw [if_pos (show (!(validateAIRequest req).isValid) = true by
      rw [hinvalid]; rfl)]

/-- Witness for C7: a valid request with no API key configured succeeds via
the fallback path. -/
theorem c7_ai_assist_fallback_witness :
    (aiAssistPOST testEnv aiEnvNoKey (some testAIReq)).success = true :=
  ((c7_ai_assist_fallback testEnv aiEnvNoKey testAIReq).1 (by decide)).1
